import Mathlib

/-!
Verification of `deepchem/utils/evaluate.py` against its specification.

The Python module is shallowly embedded below.  Numeric table columns are
modelled as `List ℚ`; the floating-point square root is modelled by the
computable rational approximation `Rat.sqrt` (no claim depends on the value
of a square root).  Python exceptions are modelled by the `PyError` type and
`Except`:

  * `valueError` models `ValueError` (the "configuration error" of the spec);
  * `nameError`  models `NameError` (reference to an undefined name);
  * `typeError`  models `TypeError` (e.g. a call with a missing argument).
-/

/-- Python exception kinds relevant to evaluate.py. -/
inductive PyError
  | valueError
  | nameError
  | typeError
deriving DecidableEq

/-- An output transform, as configured on the dataset.  The spec names the
kinds identity/none, log, and normalize; `unknown` stands for any other
kind.  The live `undo_transforms` never inspects the transform at all (its
loop body fails first), so the payload is irrelevant to every claim. -/
inductive Transform
  | identity
  | log
  | normalize (y_mean y_std : ℚ)
  | unknown (kind : String)
deriving DecidableEq

/-- Embedding of `undo_transforms(y, transformers)` (evaluate.py lines 44-49).
The source loops `for transformer in reversed(transformers)` but the loop
body reads `y = transform.unstranform(y)`: the name `transform` is not
defined anywhere in the module (and the method name is misspelled), so the
first iteration raises a `NameError`.  With an empty transformer list the
loop body never runs and `y` is returned unchanged. -/
def undo_transforms (y : List ℚ) (transformers : List Transform) :
    Except PyError (List ℚ) :=
  match transformers.reverse with
  | [] => .ok y
  | _ :: _ => .error .nameError

/-- Modelled from sklearn.metrics.roc_auc_score (third-party library, not
part of this repository): the Mann-Whitney AUC of integer scores against
binary labels, where the larger label value is the positive class.  It
raises `ValueError` when the label vector does not contain exactly two
distinct classes, or on a length mismatch. -/
def roc_auc_score (y : List ℤ) (y_score : List ℤ) : Except PyError ℚ :=
  if y.dedup.length ≠ 2 ∨ y.length ≠ y_score.length then .error .valueError
  else
    let posL : ℤ := (y.max?).getD 0
    let pos := (y.zip y_score).filter (fun p => decide (p.1 = posL))
    let neg := (y.zip y_score).filter (fun p => decide (p.1 ≠ posL))
    let num : ℚ := (pos.map (fun p =>
      (neg.map (fun q =>
        if q.2 < p.2 then (1 : ℚ) else if q.2 = p.2 then 1/2 else 0)).sum)).sum
    .ok (num / ((pos.length : ℚ) * (neg.length : ℚ)))

/-- Embedding of `compute_roc_auc_scores(y, y_pred)` (evaluate.py lines
51-66): it calls `roc_auc_score` inside `try/except ValueError`; on failure
it emits the warning "ROC AUC score calculation failed." and substitutes the
score 0.5.  The Boolean component records whether the warning was emitted. -/
def compute_roc_auc_scores (y : List ℤ) (y_pred : List ℤ) : ℚ × Bool :=
  match roc_auc_score y y_pred with
  | .ok score => (score, false)
  | .error _ => (1/2, true)

/-- Modelled from sklearn.metrics.matthews_corrcoef (third-party): the
binary Matthews correlation coefficient with positive class 1, with the
real square root in the denominator approximated by `Rat.sqrt`, and 0 when
the denominator vanishes.  No claim depends on its value. -/
def matthews_corrcoef (y_true : List ℤ) (y_pred : List ℤ) : ℚ :=
  let pairs := y_true.zip y_pred
  let tp : ℚ := ((pairs.filter (fun p => decide (p.1 = 1 ∧ p.2 = 1))).length : ℚ)
  let tn : ℚ := ((pairs.filter (fun p => decide (p.1 ≠ 1 ∧ p.2 ≠ 1))).length : ℚ)
  let fp : ℚ := ((pairs.filter (fun p => decide (p.1 ≠ 1 ∧ p.2 = 1))).length : ℚ)
  let fn : ℚ := ((pairs.filter (fun p => decide (p.1 = 1 ∧ p.2 ≠ 1))).length : ℚ)
  let denom : ℚ := Rat.sqrt ((tp + fp) * (tp + fn) * (tn + fp) * (tn + fn))
  if denom = 0 then 0 else (tp * tn - fp * fn) / denom

/-- Modelled from sklearn.metrics.recall_score (third-party): binary recall
with positive class 1, returning 0 (with a warning) when there are no
positive labels. -/
def recall_score (y_true : List ℤ) (y_pred : List ℤ) : ℚ :=
  let pairs := y_true.zip y_pred
  let tp : ℚ := ((pairs.filter (fun p => decide (p.1 = 1 ∧ p.2 = 1))).length : ℚ)
  let fn : ℚ := ((pairs.filter (fun p => decide (p.1 = 1 ∧ p.2 ≠ 1))).length : ℚ)
  if tp + fn = 0 then 0 else tp / (tp + fn)

/-- Modelled from sklearn.metrics.accuracy_score (third-party): the fraction
of positions where label and prediction agree (0 on empty input, which the
caller rules out by skipping empty tasks). -/
def accuracy_score (y_true : List ℤ) (y_pred : List ℤ) : ℚ :=
  if y_true.length = 0 then 0
  else (((y_true.zip y_pred).filter (fun p => decide (p.1 = p.2))).length : ℚ) /
    (y_true.length : ℚ)

/-- Modelled from sklearn.metrics.r2_score (third-party): the coefficient of
determination 1 - SS_res / SS_tot; raises `ValueError` on empty input or a
length mismatch. -/
def r2_score (y_true : List ℚ) (y_pred : List ℚ) : Except PyError ℚ :=
  if y_true.length ≠ y_pred.length ∨ y_true.length = 0 then .error .valueError
  else
    let ymean : ℚ := y_true.sum / (y_true.length : ℚ)
    let ssres : ℚ := ((y_true.zip y_pred).map (fun p => (p.1 - p.2) ^ 2)).sum
    let sstot : ℚ := (y_true.map (fun a => (a - ymean) ^ 2)).sum
    .ok (1 - ssres / sstot)

/-- Modelled from sklearn.metrics.mean_squared_error (third-party): the mean
of squared residuals; raises `ValueError` on empty input or a length
mismatch. -/
def mean_squared_error (y_true : List ℚ) (y_pred : List ℚ) :
    Except PyError ℚ :=
  if y_true.length ≠ y_pred.length ∨ y_true.length = 0 then .error .valueError
  else .ok (((y_true.zip y_pred).map (fun p => (p.1 - p.2) ^ 2)).sum /
    (y_true.length : ℚ))

/-- Embedding of numpy fancy indexing `v[w.nonzero()]`: keep the entries of
`v` at the positions where `w` is strictly nonzero. -/
def maskNonzero (v : List ℚ) (w : List ℚ) : List ℚ :=
  ((v.zip w).filter (fun p => decide (p.2 ≠ 0))).map Prod.fst

/-- Embedding of `v[w.nonzero()].astype(int)` composed: numpy `astype(int)`
truncates toward zero. -/
def astype_int (q : ℚ) : ℤ := if 0 ≤ q then ⌊q⌋ else ⌈q⌉

/-- The masked, integer-cast column used by the classification branch:
`v[w.nonzero()].astype(int)` (evaluate.py line 108). -/
def maskedInt (v : List ℚ) (w : List ℚ) : List ℤ :=
  (maskNonzero v w).map astype_int

/-- A row of the Performance Table: classification rows carry
[task_name, roc_auc_score, matthews_corrcoef, recall_score, accuracy_score],
regression rows carry [task_name, r2_score, rms_error].  Regression entries
are `Option ℚ` with `none` standing for numpy's NaN. -/
inductive PerfRow
  | cls (task_name : String) (roc_auc mcc tpr acc : ℚ)
  | reg (task_name : String) (r2s rms : Option ℚ)
deriving DecidableEq

/-- Embedding of the per-task body of the loop in
`Evaluator.compute_model_performance` (evaluate.py lines 106-125), taking
the already-sliced column vectors `y`, `y_pred`, `w` for one task.  In the
source this code sits after the two transform-reversal lines (whose calls
are broken, see `compute_model_performance`); it is embedded separately
because several spec claims are about exactly these lines.
Classification (lines 107-117): both vectors are masked by the strictly
nonzero weights and cast to int; if the masked vector is empty the task is
skipped (`continue`, here `none`); otherwise ROC-AUC (with its internal
try/except), MCC, recall and accuracy fill the row.
Regression (lines 118-125): no masking — `r2_score` and
`sqrt(mean_squared_error)` are computed on the full vectors inside a
`try/except ValueError` that sets both entries to NaN on failure. -/
def taskRow (task_type : String) (task_name : String)
    (y y_pred w : List ℚ) : Option PerfRow :=
  if task_type = "classification" then
    let yi := maskedInt y w
    let pi := maskedInt y_pred w
    if yi.length = 0 then none
    else
      some (.cls task_name (compute_roc_auc_scores yi pi).1
        (matthews_corrcoef yi pi) (recall_score yi pi) (accuracy_score yi pi))
  else if task_type = "regression" then
    some (match r2_score y y_pred, mean_squared_error y y_pred with
      | .ok r2s, .ok mse => .reg task_name (some r2s) (some (Rat.sqrt mse))
      | .ok _, .error _ => .reg task_name none none
      | .error _, _ => .reg task_name none none)
  else none

/-- One task of the Prediction Table: the label column `task_name`, the
prediction column `task_name_pred` and the weight column `task_name_weight`
(evaluate.py lines 102-104). -/
structure TaskData where
  name : String
  y : List ℚ
  y_pred : List ℚ
  w : List ℚ

/-- The observable outcome of one `compute_model_performance` call:
whether the Prediction Table was written to `csv_out`, whether the
Performance Table was written to `stats_file`, and the returned performance
rows or the exception that escaped. -/
structure RunResult where
  predictionsWritten : Bool
  statsWritten : Bool
  result : Except PyError (List PerfRow)

/-- Embedding of `Evaluator.compute_model_performance` (evaluate.py lines
83-128), faithful to the shipped source:
1.  `self.model.predict` is called and the Prediction Table is written to
    `csv_out` unconditionally, before anything else (lines 86-88).
2.  The column names are selected by task type; any task type other than
    "classification" or "regression" raises
    `ValueError("Unrecognized task type: ...")` (lines 90-96).
3.  The per-task loop's first statement after slicing the columns is
    `y = undo_transforms(y)` (line 105): `undo_transforms` takes two
    positional arguments, so this call raises a `TypeError` on the first
    task.  (The next line, `y_pred = undo_transform(y_pred)`, would likewise
    raise a `NameError`: `undo_transform` exists only in a commented-out
    block.)  Hence with a nonempty task list the loop aborts on its first
    iteration and the Performance Table is never written.
4.  With an empty task list the loop body never runs, the empty Performance
    Table is written to `stats_file`, and both tables are returned. -/
def compute_model_performance (task_type : String) (tasks : List TaskData) :
    RunResult :=
  if task_type = "classification" ∨ task_type = "regression" then
    match tasks with
    | [] => ⟨true, true, .ok []⟩
    | _ :: _ => ⟨true, false, .error .typeError⟩
  else ⟨true, false, .error .valueError⟩

/-- The Evaluator's state after `__init__` (evaluate.py lines 71-80): the
constructor only stores the model, dataset, transformers, task names, the
task type taken from the model, and the dataset's output transforms.  The
fields irrelevant to the claims are elided. -/
structure Evaluator where
  task_type : String
  output_transforms : List Transform

/-- Embedding of `Evaluator.__init__`: it performs no validation of the
task type (or of anything else) — it only assigns attributes, so
construction always succeeds.  The `Except` codomain records that Python
construction could in principle raise; this one never does. -/
def Evaluator.mkNew (task_type : String) (output_transforms : List Transform) :
    Except PyError Evaluator :=
  .ok ⟨task_type, output_transforms⟩

/-- `compute_model_performance` as a method of the constructed evaluator. -/
def Evaluator.compute (e : Evaluator) (tasks : List TaskData) : RunResult :=
  compute_model_performance e.task_type tasks

/-! ### Helper lemmas -/

/-- Unfolding of the classification branch of `taskRow`. -/
theorem taskRow_classification_eq (n : String) (y p w : List ℚ) :
    taskRow "classification" n y p w =
      if (maskedInt y w).length = 0 then none
      else some (.cls n (compute_roc_auc_scores (maskedInt y w) (maskedInt p w)).1
        (matthews_corrcoef (maskedInt y w) (maskedInt p w))
        (recall_score (maskedInt y w) (maskedInt p w))
        (accuracy_score (maskedInt y w) (maskedInt p w))) := rfl

/-- Unfolding of the regression branch of `taskRow`. -/
theorem taskRow_regression_eq (n : String) (y p w : List ℚ) :
    taskRow "regression" n y p w =
      some (match r2_score y p, mean_squared_error y p with
        | .ok r2s, .ok mse => .reg n (some r2s) (some (Rat.sqrt mse))
        | .ok _, .error _ => .reg n none none
        | .error _, _ => .reg n none none) := rfl

/-- When every weight is zero the nonzero-weight mask keeps nothing. -/
theorem maskNonzero_eq_nil_of_all_zero (v w : List ℚ) (h : ∀ x ∈ w, x = 0) :
    maskNonzero v w = [] := by
  unfold maskNonzero
  have hf : (v.zip w).filter (fun p => decide (p.2 ≠ 0)) = [] := by
    apply List.filter_eq_nil_iff.mpr
    intro a ha
    have hw := (List.of_mem_zip ha).2
    simp [h a.2 hw]
  rw [hf]
  rfl

/-- Appending a zero-weight sample does not change the masked column. -/
theorem maskNonzero_append_zero (v w : List ℚ) (a : ℚ)
    (h : v.length = w.length) :
    maskNonzero (v ++ [a]) (w ++ [0]) = maskNonzero v w := by
  unfold maskNonzero
  rw [List.zip_append h, List.filter_append]
  simp

/-! ### Claims -/

/-- C1: the spec says `compute_model_performance` applies `undo_transforms`
(with the configured transform sequence) to the label vector and to the
prediction vector independently before masking and metric computation.  The
two lines that should do this are present in the source but both calls are
broken: `y = undo_transforms(y)` omits the required `transformers` argument
(`TypeError`) and `y_pred = undo_transform(y_pred)` names a function that
exists only inside a commented-out block (`NameError`).  Evaluating the
embedded function on a dataset with one classification task shows the run
aborting with the `TypeError` on the first task, before any masking or
metric computation, and with no Performance Table written. -/
theorem C1_transform_calls_raise :
    compute_model_performance "classification" [⟨"task0", [1], [1], [1]⟩] =
      ⟨true, false, .error .typeError⟩ := rfl

/-- C2 counterexample: a regression task whose weights are all zero still
gets a Performance Row.  The claim says no row is emitted for an all-zero
weight task regardless of task type; the regression branch never masks and
never skips, so a row is produced. -/
theorem C2_counterexample :
    (∀ x ∈ [(0 : ℚ), 0], x = 0) ∧
    (taskRow "regression" "t" [0, 1] [0, 1] [0, 0]).isSome = true :=
  ⟨by simp, rfl⟩

/-- C2 amended: for a classification task whose weights are all zero the
masked vectors are empty and no row is emitted, while a regression task
always yields exactly one row — even when every weight is zero (its metrics
are computed on the unmasked vectors). -/
theorem C2_amended (n : String) (y p w : List ℚ) (h : ∀ x ∈ w, x = 0) :
    taskRow "classification" n y p w = none ∧
    (taskRow "regression" n y p w).isSome = true := by
  constructor
  · rw [taskRow_classification_eq]
    have hm : maskNonzero y w = [] := maskNonzero_eq_nil_of_all_zero y w h
    simp [maskedInt, hm]
  · rw [taskRow_regression_eq]
    rfl

/-- Witness for C2: one classification task and one regression task with the
all-zero weight vector `[0]`. -/
theorem C2_amended_witness :
    taskRow "classification" "t" [1] [1] [0] = none ∧
    (taskRow "regression" "t" [1] [1] [0]).isSome = true :=
  C2_amended "t" [1] [1] [0] (by simp)

/-- C3 counterexample: the claim implies every metric is computed from the
masked vectors only, so the two runs below — whose masked label and
prediction vectors coincide (`maskNonzero [0,1,5] [1,1,0] = [0,1]`, and
similarly for the predictions) — would produce the same row.  They do not:
the regression branch computes on the unmasked vectors, and the zero-weight
third sample changes the R² entry. -/
theorem C3_counterexample :
    maskNonzero [0, 1, 5] [1, 1, 0] = [0, 1] ∧
    maskNonzero [0, 1, 0] [1, 1, 0] = [0, 1] ∧
    taskRow "regression" "t" [0, 1, 5] [0, 1, 0] [1, 1, 0] ≠
      taskRow "regression" "t" [0, 1] [0, 1] [1, 1] :=
  ⟨rfl, rfl, by norm_num [taskRow_regression_eq, r2_score, mean_squared_error]⟩

/-- C3 amended: the strictly-nonzero-weight mask is computed and applied to
both vectors before any metric for classification tasks only: there a
zero-weight example never contributes (appending one leaves the row
unchanged).  The regression branch ignores the weights entirely, so
zero-weight examples do contribute to regression metrics. -/
theorem C3_amended (n : String) (y p w : List ℚ) (a b : ℚ) (w' : List ℚ)
    (h1 : y.length = w.length) (h2 : p.length = w.length) :
    taskRow "classification" n (y ++ [a]) (p ++ [b]) (w ++ [0]) =
      taskRow "classification" n y p w ∧
    taskRow "regression" n y p w = taskRow "regression" n y p w' := by
  constructor
  · rw [taskRow_classification_eq, taskRow_classification_eq]
    have hy : maskedInt (y ++ [a]) (w ++ [0]) = maskedInt y w := by
      unfold maskedInt
      rw [maskNonzero_append_zero y w a h1]
    have hp : maskedInt (p ++ [b]) (w ++ [0]) = maskedInt p w := by
      unfold maskedInt
      rw [maskNonzero_append_zero p w b h2]
    rw [hy, hp]
  · rw [taskRow_regression_eq, taskRow_regression_eq]

/-- Witness for C3: appending the zero-weight sample (5, 7) to a one-sample
classification task leaves the row unchanged, and a regression row does not
depend on the weight column. -/
theorem C3_amended_witness :
    taskRow "classification" "t" [1, 5] [1, 7] [1, 0] =
      taskRow "classification" "t" [1] [1] [1] ∧
    taskRow "regression" "t" [1] [1] [1] = taskRow "regression" "t" [1] [1] [9] :=
  C3_amended "t" [1] [1] [1] 5 7 [9] rfl rfl

/-- C4 counterexample: constructing an Evaluator with the unrecognized task
type "multitask" succeeds — `__init__` only assigns attributes and performs
no validation, so no configuration error is raised at construction time,
contrary to the claim. -/
theorem C4_counterexample :
    Evaluator.mkNew "multitask" [] = .ok ⟨"multitask", []⟩ := rfl

/-- C4 amended: construction always succeeds, whatever the task type; the
`ValueError` for an unrecognized task type is raised only when
`compute_model_performance` is invoked. -/
theorem C4_amended (t : String) (ts : List Transform) (tasks : List TaskData)
    (h1 : t ≠ "classification") (h2 : t ≠ "regression") :
    Evaluator.mkNew t ts = .ok ⟨t, ts⟩ ∧
    (Evaluator.compute ⟨t, ts⟩ tasks).result = .error .valueError := by
  refine ⟨rfl, ?_⟩
  simp [Evaluator.compute, compute_model_performance, h1, h2]

/-- Witness for C4: the "multitask" evaluator is constructed without error,
and the `ValueError` surfaces from `compute_model_performance`. -/
theorem C4_amended_witness :
    Evaluator.mkNew "multitask" [] = .ok ⟨"multitask", []⟩ ∧
    (Evaluator.compute ⟨"multitask", []⟩ []).result = .error .valueError :=
  C4_amended "multitask" [] [] (by decide) (by decide)

/-- C5: the spec (and the comment inside `undo_transforms` itself) says the
transforms are undone one by one in reverse order of application.  The loop
body instead reads `transform.unstranform(y)` — `transform` is an undefined
name — so the very first iteration raises a `NameError`: no transform is
ever undone.  Evaluating the embedded function on a one-element transform
sequence exhibits the failure. -/
theorem C5_undo_transforms_raises :
    undo_transforms [1] [Transform.log] = .error .nameError := rfl

/-- C6: with an empty transform sequence the loop body never runs and the
vector is returned unchanged: `undo_transforms(v, [])` is the identity. -/
theorem C6_empty_transforms_identity (v : List ℚ) :
    undo_transforms v [] = .ok v := rfl

/-- C7 counterexample: on a sequence containing an unrecognized transform
kind, `undo_transforms` does fail — but with the `NameError` its broken loop
body raises on every non-empty sequence, not with the kind-inspecting
configuration error (`ValueError`) the claim describes. -/
theorem C7_counterexample :
    undo_transforms [1] [Transform.unknown "foo"] = .error .nameError ∧
    PyError.nameError ≠ PyError.valueError :=
  ⟨rfl, by decide⟩

/-- C7 amended: `undo_transforms` never inspects transform kinds at all: it
raises a `NameError` (an undefined-variable error, not a configuration
error) for every non-empty transform sequence, unrecognized kinds included;
the error propagates to the caller. -/
theorem C7_amended (v : List ℚ) (ts : List Transform) (h : ts ≠ []) :
    undo_transforms v ts = .error .nameError := by
  unfold undo_transforms
  cases hr : ts.reverse with
  | nil => exact absurd (List.reverse_eq_nil_iff.mp hr) h
  | cons a l => rfl

/-- Witness for C7: a singleton sequence with an unrecognized kind. -/
theorem C7_amended_witness :
    undo_transforms [2] [Transform.unknown "bar"] = .error .nameError :=
  C7_amended [2] [Transform.unknown "bar"] (by simp)

/-- C8: when the masked label vector is degenerate for ROC-AUC (fewer or
more than two distinct classes — e.g. a single class), `roc_auc_score`
raises `ValueError`, `compute_roc_auc_scores` catches it, emits the warning
(the `true` flag) and substitutes the neutral default 0.5; the
classification row is still produced, with the other three metrics computed
normally. -/
theorem C8_degenerate_roc_auc (n : String) (y p w : List ℚ)
    (h1 : maskedInt y w ≠ [])
    (h2 : (maskedInt y w).dedup.length ≠ 2) :
    compute_roc_auc_scores (maskedInt y w) (maskedInt p w) = (1/2, true) ∧
    taskRow "classification" n y p w =
      some (.cls n (1/2)
        (matthews_corrcoef (maskedInt y w) (maskedInt p w))
        (recall_score (maskedInt y w) (maskedInt p w))
        (accuracy_score (maskedInt y w) (maskedInt p w))) := by
  have hroc : compute_roc_auc_scores (maskedInt y w) (maskedInt p w) = (1/2, true) := by
    unfold compute_roc_auc_scores roc_auc_score
    rw [if_pos (Or.inl h2)]
  refine ⟨hroc, ?_⟩
  rw [taskRow_classification_eq,
    if_neg (fun hlen => h1 (List.length_eq_zero.mp hlen)), hroc]

/-- Witness for C8: an all-zero masked label vector (a single class), for
which ROC-AUC would be undefined. -/
theorem C8_degenerate_roc_auc_witness :
    compute_roc_auc_scores (maskedInt [0, 0] [1, 1]) (maskedInt [0, 1] [1, 1]) =
      (1/2, true) ∧
    taskRow "classification" "t" [0, 0] [0, 1] [1, 1] =
      some (.cls "t" (1/2)
        (matthews_corrcoef (maskedInt [0, 0] [1, 1]) (maskedInt [0, 1] [1, 1]))
        (recall_score (maskedInt [0, 0] [1, 1]) (maskedInt [0, 1] [1, 1]))
        (accuracy_score (maskedInt [0, 0] [1, 1]) (maskedInt [0, 1] [1, 1]))) :=
  C8_degenerate_roc_auc "t" [0, 0] [0, 1] [1, 1]
    (by rw [show maskedInt [0, 0] [1, 1] = [0, 0] from rfl]; simp)
    (by rw [show maskedInt [0, 0] [1, 1] = [0, 0] from rfl]; simp)

/-- C9: in the regression branch both metric computations sit inside one
`try/except ValueError`; if either fails the handler records both entries of
the row as NaN (here `none`), no exception escapes, and the row is still
emitted so the run continues with the next task. -/
theorem C9_regression_both_nan (n : String) (y p w : List ℚ)
    (h : r2_score y p = .error .valueError ∨
      mean_squared_error y p = .error .valueError) :
    taskRow "regression" n y p w = some (.reg n none none) := by
  rw [taskRow_regression_eq]
  by_cases hc : y.length ≠ p.length ∨ y.length = 0
  · have hr : r2_score y p = .error .valueError := by
      unfold r2_score
      rw [if_pos hc]
    have hm : mean_squared_error y p = .error .valueError := by
      unfold mean_squared_error
      rw [if_pos hc]
    rw [hr, hm]
  · exfalso
    rcases h with h | h
    · unfold r2_score at h
      rw [if_neg hc] at h
      exact Except.noConfusion h
    · unfold mean_squared_error at h
      rw [if_neg hc] at h
      exact Except.noConfusion h

/-- Witness for C9: the empty task (no samples), where `r2_score` raises. -/
theorem C9_regression_both_nan_witness :
    taskRow "regression" "t" [] [] [] = some (.reg "t" none none) :=
  C9_regression_both_nan "t" [] [] [] (Or.inl rfl)

/-- C10: for an unrecognized task type, `compute_model_performance` still
calls `self.model.predict` and writes the Prediction Table to `csv_out`
first, then raises the `ValueError` before the loop: the predictions side
effect happens, no Performance Table is written, and the error escapes. -/
theorem C10_predictions_written_before_error (t : String)
    (tasks : List TaskData) (h1 : t ≠ "classification") (h2 : t ≠ "regression") :
    compute_model_performance t tasks = ⟨true, false, .error .valueError⟩ := by
  simp [compute_model_performance, h1, h2]

/-- Witness for C10: the task type "multitask". -/
theorem C10_predictions_written_before_error_witness :
    compute_model_performance "multitask" [⟨"task0", [1], [1], [1]⟩] =
      ⟨true, false, .error .valueError⟩ :=
  C10_predictions_written_before_error "multitask" [⟨"task0", [1], [1], [1]⟩]
    (by decide) (by decide)
